import Mathlib

/-!
Verification of the auth polling state machine (`src/observableApiAuth.ts`) and
the scaffold/template renderer (`src/create.ts`) of the observable-framework CLI.

The TypeScript is shallowly embedded: effectful code is modelled as pure
functions that return an explicit trace of the performed effects alongside the
result; the stream of remote poll responses is passed in as a list (the list
running out while the loop still wants to poll is reported as a distinguished
`outOfResponses` outcome, which no claim exercises).
-/

/-- An `{id, key}` pair as returned in a `PostAuthRequestPollResponse.apiKey`
field and passed to `setObservableApiKey` (observableApiAuth.ts line 23). -/
structure KeyPair where
  id : String
  key : String
deriving DecidableEq, Repr

/-- One response of `apiClient.postAuthRequestPoll`: a raw `status` string plus
the optional `apiKey` payload (present on `accepted`). -/
structure PollResponse where
  status : String
  apiKey : Option KeyPair
deriving DecidableEq, Repr

/-- Observable effects of the login flow that the claims talk about: a poll
request (`postAuthRequestPoll`), a timer sleep (`setTimeout(resolve, ms)`,
line 70), and a credential-store write (`effects.setObservableApiKey`,
line 74; `none` is the TS `null`, i.e. an erase). UI effects (spinner, clack
logging) are out of scope per the spec and are not traced. -/
inductive AuthEv where
  | poll : AuthEv
  | sleep : Nat → AuthEv
  | setKey : Option KeyPair → AuthEv
deriving DecidableEq, Repr

/-- How the `while (apiKey === null)` loop (lines 51-71) ends:
`assigned k?` means the loop exited normally because `apiKey` was assigned
(JS `undefined` is modelled as `none`, and `undefined !== null`, so the loop
also exits when `accepted` carried no key); `threw msg` is a thrown
`CliError`; `ranOut` is the model bound (response list exhausted). -/
inductive LoopOutcome where
  | assigned : Option KeyPair → LoopOutcome
  | threw : String → LoopOutcome
  | ranOut : LoopOutcome
deriving DecidableEq, Repr

/-- Overall result of `login` (the polling/persist portion, lines 51-74). -/
inductive LoginResult where
  | success : KeyPair → LoginResult
  | failure : String → LoginResult
  | outOfResponses : LoginResult
deriving DecidableEq, Repr

/-- The poll response a server sends while the request is still pending. -/
def pendingResponse : PollResponse := ⟨"pending", none⟩

/-- Embedding of the `while (apiKey === null)` loop, observableApiAuth.ts
lines 51-71. Each iteration polls once, then switches on the raw status:
`pending` falls through to the 1000 ms sleep and loops; `accepted` assigns
`apiKey` and also falls through to the sleep (the `break` leaves the `switch`,
not the `while`), after which the loop condition fails; `expired`, `consumed`
and the `default` arm throw a `CliError` immediately, with no further sleep
and no further poll. -/
def loginPollLoop : List PollResponse → List AuthEv × LoopOutcome
  | [] => ([], .ranOut)
  | r :: rs =>
    if r.status = "pending" then
      let rest := loginPollLoop rs
      (AuthEv.poll :: AuthEv.sleep 1000 :: rest.1, rest.2)
    else if r.status = "accepted" then
      ([AuthEv.poll, AuthEv.sleep 1000], .assigned r.apiKey)
    else if r.status = "expired" then
      ([AuthEv.poll], .threw "That confirmation code expired.")
    else if r.status = "consumed" then
      ([AuthEv.poll], .threw "That confirmation code has already been used.")
    else
      ([AuthEv.poll], .threw ("Received an unknown polling status " ++ r.status ++ "."))

/-- Embedding of `login`, observableApiAuth.ts lines 51-74: run the polling
loop, then `if (!apiKey) throw new CliError("No API key returned from
server.")` (line 73: a loop that exited with an `undefined` key throws, with
no store write), else `await effects.setObservableApiKey(apiKey)` (line 74:
the single credential-store write). -/
def login (rs : List PollResponse) : List AuthEv × LoginResult :=
  match loginPollLoop rs with
  | (evs, .ranOut) => (evs, .outOfResponses)
  | (evs, .threw m) => (evs, .failure m)
  | (evs, .assigned none) => (evs, .failure "No API key returned from server.")
  | (evs, .assigned (some k)) => (evs ++ [AuthEv.setKey (some k)], .success k)

/-- The credential-store writes (`setObservableApiKey` calls) of a trace, in
order; the payload `none` is an erase (TS `null`). -/
def keyWrites (evs : List AuthEv) : List (Option KeyPair) :=
  evs.filterMap fun e =>
    match e with
    | AuthEv.setKey k => some k
    | _ => none

/-- The first response of the stream whose status is not `pending`: the one
the loop terminates on, if any. -/
def firstTerminal (rs : List PollResponse) : Option PollResponse :=
  rs.find? fun r => decide (r.status ≠ "pending")

/-- Embedding of `logout`, observableApiAuth.ts lines 94-96: a single
unconditional `setObservableApiKey(null)`; the function never reads the
store and has no failure path. -/
def logout : List AuthEv := [AuthEv.setKey none]

/-- The credential-store contents after replaying a trace of auth effects on
an initial store state (only `setKey` writes affect the store). -/
def applyAuthEvs (store : Option KeyPair) (evs : List AuthEv) : Option KeyPair :=
  evs.foldl (fun st e =>
    match e with
    | AuthEv.setKey k => k
    | _ => st) store

@[simp]
theorem pendingResponse_status : pendingResponse.status = "pending" := rfl

theorem loginPollLoop_replicate_pending (n : Nat) (rest : List PollResponse) :
    loginPollLoop (List.replicate n pendingResponse ++ rest) =
      ((List.replicate n [AuthEv.poll, AuthEv.sleep 1000]).flatten ++ (loginPollLoop rest).1,
        (loginPollLoop rest).2) := by
  induction n with
  | zero => simp
  | succ n ih => simp [List.replicate_succ, loginPollLoop, ih]

/-- C1: for every run of zero or more `pending` responses followed by one
terminal response, the login flow polls exactly once per response (so it
never polls again after the terminal one), performs exactly one 1000 ms
sleep between consecutive polls of `pending` results, and terminates on the
first terminal status with that status's contracted outcome: `accepted`
persists and proceeds with the returned key (the loop's trailing sleep still
runs, since the `break` only leaves the `switch`), while `expired`,
`consumed` and any unrecognized status abort immediately with the
corresponding `CliError` and no further sleep or poll. -/
theorem login_polling_contract (n : Nat) :
    (∀ k : KeyPair,
      login (List.replicate n pendingResponse ++ [⟨"accepted", some k⟩]) =
        ((List.replicate n [AuthEv.poll, AuthEv.sleep 1000]).flatten ++
          [AuthEv.poll, AuthEv.sleep 1000, AuthEv.setKey (some k)], .success k))
    ∧ (login (List.replicate n pendingResponse ++ [⟨"expired", none⟩]) =
        ((List.replicate n [AuthEv.poll, AuthEv.sleep 1000]).flatten ++ [AuthEv.poll],
          .failure "That confirmation code expired."))
    ∧ (login (List.replicate n pendingResponse ++ [⟨"consumed", none⟩]) =
        ((List.replicate n [AuthEv.poll, AuthEv.sleep 1000]).flatten ++ [AuthEv.poll],
          .failure "That confirmation code has already been used."))
    ∧ (∀ (s : String) (a : Option KeyPair),
        s ∉ (["pending", "accepted", "expired", "consumed"] : List String) →
        login (List.replicate n pendingResponse ++ [⟨s, a⟩]) =
          ((List.replicate n [AuthEv.poll, AuthEv.sleep 1000]).flatten ++ [AuthEv.poll],
            .failure ("Received an unknown polling status " ++ s ++ "."))) := by
  refine ⟨fun k => ?_, ?_, ?_, fun s a hs => ?_⟩
  · simp [login, loginPollLoop_replicate_pending, loginPollLoop]
  · simp [login, loginPollLoop_replicate_pending, loginPollLoop]
  · simp [login, loginPollLoop_replicate_pending, loginPollLoop]
  · simp only [List.mem_cons, List.not_mem_nil, or_false, not_or] at hs
    obtain ⟨h1, h2, h3, h4⟩ := hs
    simp [login, loginPollLoop_replicate_pending, loginPollLoop, h1, h2, h3, h4]

/-- Witness for C1 at a concrete run: one `pending`, then the unrecognized
status `"revoked"`. -/
theorem login_polling_contract_witness :
    login [pendingResponse, ⟨"revoked", none⟩] =
      ([AuthEv.poll, AuthEv.sleep 1000, AuthEv.poll],
        .failure ("Received an unknown polling status " ++ "revoked" ++ ".")) := by
  have h := (login_polling_contract 1).2.2.2 "revoked" none (by decide)
  simpa using h

theorem keyWrites_login_cons_pending (r : PollResponse) (rs : List PollResponse)
    (hp : r.status = "pending") :
    keyWrites (login (r :: rs)).1 = keyWrites (login rs).1 := by
  rcases h : loginPollLoop rs with ⟨evs, oc⟩
  have hcons : loginPollLoop (r :: rs) = (AuthEv.poll :: AuthEv.sleep 1000 :: evs, oc) := by
    simp [loginPollLoop, hp, h]
  cases oc with
  | assigned k => cases k <;> simp [login, hcons, h, keyWrites]
  | threw m => simp [login, hcons, h, keyWrites]
  | ranOut => simp [login, hcons, h, keyWrites]

/-- C2: for every sequence of poll responses, the credential-store writes the
login flow performs are exactly one write of the returned `{id, key}` pair
when the first non-`pending` response is `accepted` and carries a key, and
zero writes in every other case — in particular zero writes on every run
whose terminal status is `expired`, `consumed` or unrecognized, and zero
writes when `accepted` arrives without a key (line 73 throws before the
write of line 74). No erase or other partial credential state is ever
written by `login`. -/
theorem login_write_iff_accepted (rs : List PollResponse) :
    keyWrites (login rs).1 =
      (match firstTerminal rs with
       | some r =>
         if r.status = "accepted" then
           (match r.apiKey with
            | some k => [some k]
            | none => [])
         else []
       | none => []) := by
  induction rs with
  | nil => rfl
  | cons r rs ih =>
    by_cases hp : r.status = "pending"
    · have hf : firstTerminal (r :: rs) = firstTerminal rs := by
        simp [firstTerminal, List.find?, hp]
      rw [keyWrites_login_cons_pending r rs hp, hf, ih]
    · have hf : firstTerminal (r :: rs) = some r := by
        simp [firstTerminal, List.find?, hp]
      rw [hf]
      by_cases ha : r.status = "accepted"
      · have hcons : loginPollLoop (r :: rs) =
            ([AuthEv.poll, AuthEv.sleep 1000], .assigned r.apiKey) := by
          simp [loginPollLoop, hp, ha]
        cases hk : r.apiKey <;> simp [login, hcons, hk, keyWrites, ha]
      · by_cases he : r.status = "expired"
        · have hcons : loginPollLoop (r :: rs) =
              ([AuthEv.poll], .threw "That confirmation code expired.") := by
            simp [loginPollLoop, hp, ha, he]
          simp [login, hcons, keyWrites, ha]
        · by_cases hc : r.status = "consumed"
          · have hcons : loginPollLoop (r :: rs) =
                ([AuthEv.poll], .threw "That confirmation code has already been used.") := by
              simp [loginPollLoop, hp, ha, he, hc]
            simp [login, hcons, keyWrites, ha]
          · have hcons : loginPollLoop (r :: rs) =
                ([AuthEv.poll],
                  .threw ("Received an unknown polling status " ++ r.status ++ ".")) := by
              simp [loginPollLoop, hp, ha, he, hc]
            simp [login, hcons, keyWrites, ha]

/-- C7: a poll response whose status is none of `pending`, `accepted`,
`expired`, `consumed` makes the login flow fail with the `CliError` of
line 68, whose message contains the literal raw status string. -/
theorem login_unknown_status_surfaces_raw (n : Nat) (s : String) (a : Option KeyPair)
    (hs : s ∉ (["pending", "accepted", "expired", "consumed"] : List String)) :
    (login (List.replicate n pendingResponse ++ [⟨s, a⟩])).2 =
        .failure ("Received an unknown polling status " ++ s ++ ".")
    ∧ ∃ pre post : String,
        "Received an unknown polling status " ++ s ++ "." = pre ++ s ++ post := by
  simp only [List.mem_cons, List.not_mem_nil, or_false, not_or] at hs
  obtain ⟨h1, h2, h3, h4⟩ := hs
  constructor
  · simp [login, loginPollLoop_replicate_pending, loginPollLoop, h1, h2, h3, h4]
  · exact ⟨"Received an unknown polling status ", ".", rfl⟩

/-- Witness for C7: the unrecognized status `"revoked"` yields a failure
whose message contains the literal string `"revoked"`. -/
theorem login_unknown_status_surfaces_raw_witness :
    (login [⟨"revoked", none⟩]).2 =
        .failure ("Received an unknown polling status " ++ "revoked" ++ ".")
    ∧ ∃ pre post : String,
        "Received an unknown polling status " ++ "revoked" ++ "." =
          pre ++ "revoked" ++ post := by
  have h := login_unknown_status_surfaces_raw 0 "revoked" none (by decide)
  simpa using h

/-- C9: `logout` performs exactly one credential-store write, the erase
`setObservableApiKey(null)`; it does not read or branch on the current
store, so it succeeds also when no credential exists, leaves the store
empty from any starting state, and running it twice leaves the same store
state as running it once. -/
theorem logout_single_erase_idempotent (store : Option KeyPair) :
    keyWrites logout = [none]
    ∧ applyAuthEvs store logout = none
    ∧ applyAuthEvs (applyAuthEvs store logout) logout = applyAuthEvs store logout := by
  exact ⟨rfl, rfl, rfl⟩

/-- Errors of an API call as `whoami` distinguishes them: `isHttpError`
errors carry a `statusCode`; anything else is opaque. -/
inductive ApiError where
  | httpError : Nat → ApiError
  | otherError : String → ApiError
deriving DecidableEq, Repr

/-- The `ApiKey` record of `observableApiConfig`: a provenance tag (`"login"`,
`"env"` or `"file"`), the environment variable name when provenance is the
environment, and the key itself. -/
structure ApiKey where
  source : String
  envVar : Option String
  key : String
deriving DecidableEq, Repr

/-- A workspace entry of the current user's profile. -/
structure Workspace where
  login : String
  name : Option String
deriving DecidableEq, Repr

/-- The authenticated user profile returned by `getCurrentUser`. -/
structure User where
  login : String
  name : Option String
  workspaces : List Workspace
deriving DecidableEq, Repr

/-- Embedding of `formatUser`, observableApiAuth.ts lines 128-130. The TS
`user.name ?` test is JS truthiness, so an empty-string name falls back to
the `@login` form just like an absent one. -/
def formatUser (name : Option String) (login : String) : String :=
  match name with
  | some nm => if nm = "" then "@" ++ login else nm ++ " (@" ++ login ++ ")"
  | none => "@" ++ login

/-- Embedding of `whoami`, observableApiAuth.ts lines 98-126. Inputs: the
`commandInstruction` rendering function (external module, passed in
abstractly), the UI origin hostname, the loaded credential, and the outcome
of the `getCurrentUser` call. Output: the lines passed to `logger.log`
(a no-argument `logger.log()` is the empty line), and the error re-thrown by
line 123, if any. The fetch is the first statement of the `try`, so nothing
is logged before an error occurs. -/
def whoami (ci : String → String) (hostname : String) (apiKey : ApiKey)
    (fetchUser : Except ApiError User) : List String × Option ApiError :=
  match fetchUser with
  | .ok user =>
      (["",
        "You are logged into " ++ hostname ++ " as " ++
          formatUser user.name user.login ++ ".",
        "",
        "You have access to the following workspaces:"]
        ++ user.workspaces.map (fun w => " * " ++ formatUser w.name w.login)
        ++ [""], none)
  | .error e =>
      match e with
      | .httpError code =>
          if code = 401 then
            if apiKey.source = "env" then
              (["Your API key is invalid. Check the value of the " ++
                 apiKey.envVar.getD "undefined" ++ " environment variable."], none)
            else if apiKey.source = "file" then
              (["Your API key is invalid. Run " ++ ci "login" ++ " to log in again."],
                none)
            else
              (["Your API key is invalid."], none)
          else ([], some (.httpError code))
      | .otherError m => ([], some (.otherError m))

/-- C8: when the user fetch fails with an HTTP 401, `whoami` propagates no
error and logs exactly one message, selected by the credential's provenance
(the environment-variable message for source `"env"`, the re-run-login
message for source `"file"`, the generic message otherwise); every error
that is not an HTTP 401 — a different status code or a non-HTTP error — is
propagated unchanged with nothing logged. -/
theorem whoami_401_degrades (ci : String → String) (hostname : String) (k : ApiKey) :
    (whoami ci hostname k (.error (.httpError 401)) =
      ([if k.source = "env" then
          "Your API key is invalid. Check the value of the " ++
            k.envVar.getD "undefined" ++ " environment variable."
        else if k.source = "file" then
          "Your API key is invalid. Run " ++ ci "login" ++ " to log in again."
        else "Your API key is invalid."], none))
    ∧ (∀ code : Nat, code ≠ 401 →
        whoami ci hostname k (.error (.httpError code)) =
          ([], some (.httpError code)))
    ∧ (∀ m : String,
        whoami ci hostname k (.error (.otherError m)) =
          ([], some (.otherError m))) := by
  refine ⟨?_, fun code hc => ?_, fun m => ?_⟩
  · by_cases he : k.source = "env"
    · simp [whoami, he]
    · by_cases hf : k.source = "file" <;> simp [whoami, he, hf]
  · simp [whoami, hc]
  · rfl

/-- Witness for C8 at concrete inputs: an env-sourced key on a 401, and a
500 response propagating unchanged. -/
theorem whoami_401_degrades_witness :
    (whoami id "observablehq.com" ⟨"env", some "OBSERVABLE_TOKEN", "k1"⟩
        (.error (.httpError 401)) =
      ([if ("env" : String) = "env" then
          "Your API key is invalid. Check the value of the " ++
            (some "OBSERVABLE_TOKEN").getD "undefined" ++ " environment variable."
        else if ("env" : String) = "file" then
          "Your API key is invalid. Run " ++ id "login" ++ " to log in again."
        else "Your API key is invalid."], none))
    ∧ (whoami id "observablehq.com" ⟨"env", some "OBSERVABLE_TOKEN", "k1"⟩
        (.error (.httpError 500)) = ([], some (.httpError 500))) := by
  refine ⟨?_, ?_⟩
  · exact (whoami_401_degrades id "observablehq.com"
      ⟨"env", some "OBSERVABLE_TOKEN", "k1"⟩).1
  · exact (whoami_401_degrades id "observablehq.com"
      ⟨"env", some "OBSERVABLE_TOKEN", "k1"⟩).2.1 500 (by decide)

/-- JS regex class `\s` (the subset of whitespace the templates can contain:
ASCII whitespace plus no-break space). Used by the `\s*` parts of the
placeholder pattern of create.ts line 174. -/
def isSpaceChar (c : Char) : Bool :=
  c = ' ' || c = '\t' || c = '\n' || c = '\r' || c = '\x0b' || c = '\x0c' || c = ' '

/-- JS regex class `\w`: ASCII letters, digits and underscore. Used by the
`(\w+)` key of the placeholder pattern of create.ts line 174. -/
def isWordChar (c : Char) : Bool :=
  c.isAlphanum || c = '_'

theorem isWordChar_eq_false_of_isSpaceChar {c : Char} (h : isSpaceChar c = true) :
    isWordChar c = false := by
  simp only [isSpaceChar, Bool.or_eq_true, decide_eq_true_eq] at h
  rcases h with ((((((h | h) | h) | h) | h) | h) | h) <;> subst h <;> decide

theorem not_isSpaceChar_of_isWordChar {c : Char} (h : isWordChar c = true) :
    isSpaceChar c = false := by
  cases hs : isSpaceChar c
  · rfl
  · rw [isWordChar_eq_false_of_isSpaceChar hs] at h
    exact absurd h (by simp)

/-- One attempted match of the pattern `\{\{\s*(\w+)\s*\}\}` at the head of
the character list. Because `\s` and `\w` are disjoint classes and the
pattern has no other branching, the backtracking regex engine's leftmost
match is exactly maximal-munch: two braces, a maximal run of whitespace, a
nonempty maximal run of word characters (the captured key), a maximal run
of whitespace, two braces. Returns the captured key and the characters
after the match. -/
def tryToken : List Char → Option (String × List Char)
  | c1 :: c2 :: rest =>
    if c1 = '{' ∧ c2 = '{' then
      if (rest.dropWhile isSpaceChar).takeWhile isWordChar = [] then none
      else if (((rest.dropWhile isSpaceChar).dropWhile isWordChar).dropWhile
          isSpaceChar).take 2 = ['}', '}'] then
        some (String.mk ((rest.dropWhile isSpaceChar).takeWhile isWordChar),
          (((rest.dropWhile isSpaceChar).dropWhile isWordChar).dropWhile
            isSpaceChar).drop 2)
      else none
    else none
  | _ => none

theorem length_dropWhile_le (p : Char → Bool) (l : List Char) :
    (l.dropWhile p).length ≤ l.length := by
  induction l with
  | nil => simp
  | cons c cs ih =>
    rw [List.dropWhile_cons]
    split
    · exact Nat.le_succ_of_le ih
    · simp

theorem tryToken_length {l : List Char} {k : String} {rest : List Char}
    (h : tryToken l = some (k, rest)) : rest.length < l.length := by
  match l with
  | [] => simp [tryToken] at h
  | [c] => simp [tryToken] at h
  | c1 :: c2 :: tl =>
    rw [tryToken] at h
    split at h
    · split at h
      · exact absurd h (by simp)
      · split at h
        · have hr : rest =
              (((tl.dropWhile isSpaceChar).dropWhile isWordChar).dropWhile
                isSpaceChar).drop 2 :=
            (congrArg Prod.snd (Option.some.inj h)).symm
          have h1 :
              ((((tl.dropWhile isSpaceChar).dropWhile isWordChar).dropWhile
                isSpaceChar).drop 2).length ≤
              (((tl.dropWhile isSpaceChar).dropWhile isWordChar).dropWhile
                isSpaceChar).length := by
            simp
          have h2 := length_dropWhile_le isSpaceChar
            ((tl.dropWhile isSpaceChar).dropWhile isWordChar)
          have h3 := length_dropWhile_le isWordChar (tl.dropWhile isSpaceChar)
          have h4 := length_dropWhile_le isSpaceChar tl
          rw [hr]
          simp only [List.length_cons]
          omega
        · exact absurd h (by simp)
    · exact absurd h (by simp)

/-- Embedding of the `contents.replaceAll(/\{\{\s*(\w+)\s*\}\}/g, ...)` call
of create.ts lines 174-178: scan left to right; at each position, a match of
the placeholder pattern is replaced using the replacer
`(_, key) => { const val = context[key]; if (val) return val; throw new
Error(`no template variable ` + key); }` — so a key that is unmapped
(`context[key]` undefined) or mapped to the empty string (both falsy)
throws, aborting the whole scan at the first such token; a non-matching
character is emitted unchanged. -/
def substTemplate (ctx : String → Option String) (l : List Char) :
    Except String (List Char) :=
  match l with
  | [] => .ok []
  | c :: cs =>
    if h : (tryToken (c :: cs)).isSome then
      match ctx ((tryToken (c :: cs)).get h).1 with
      | some v =>
        if v = "" then
          .error ("no template variable " ++ ((tryToken (c :: cs)).get h).1)
        else
          match substTemplate ctx ((tryToken (c :: cs)).get h).2 with
          | .ok out => .ok (v.data ++ out)
          | .error e => .error e
      | none => .error ("no template variable " ++ ((tryToken (c :: cs)).get h).1)
    else
      match substTemplate ctx cs with
      | .ok out => .ok (c :: out)
      | .error e => .error e
termination_by l.length
decreasing_by
  · exact tryToken_length (Option.some_get h).symm
  · simp

theorem substTemplate_cons_of_none {c : Char} {cs : List Char}
    (ctx : String → Option String) (h : tryToken (c :: cs) = none) :
    substTemplate ctx (c :: cs) =
      match substTemplate ctx cs with
      | .ok out => .ok (c :: out)
      | .error e => .error e := by
  rw [substTemplate, dif_neg]
  simp [h]

theorem substTemplate_cons_of_some {c : Char} {cs rest : List Char} {key : String}
    (ctx : String → Option String) (h : tryToken (c :: cs) = some (key, rest)) :
    substTemplate ctx (c :: cs) =
      match ctx key with
      | some v =>
        if v = "" then .error ("no template variable " ++ key)
        else
          match substTemplate ctx rest with
          | .ok out => .ok (v.data ++ out)
          | .error e => .error e
      | none => .error ("no template variable " ++ key) := by
  rw [substTemplate]
  rw [dif_pos (by simp [h])]
  simp only [h, Option.get_some]

theorem string_mk_data (s : String) : String.mk s.data = s := rfl

theorem tryToken_not_brace {c : Char} (hc : c ≠ '{') (l : List Char) :
    tryToken (c :: l) = none := by
  cases l with
  | nil => rfl
  | cons c2 tl =>
    rw [tryToken]
    rw [if_neg]
    intro hb
    exact hc hb.1

theorem substTemplate_append_of_no_brace (ctx : String → Option String)
    (pre l : List Char) (h : ∀ c ∈ pre, c ≠ '{') :
    substTemplate ctx (pre ++ l) =
      match substTemplate ctx l with
      | .ok out => .ok (pre ++ out)
      | .error e => .error e := by
  induction pre with
  | nil =>
    cases hl : substTemplate ctx l <;> simp [hl]
  | cons c cs ih =>
    have hc : c ≠ '{' := h c (by simp)
    have hcs : ∀ x ∈ cs, x ≠ '{' := fun x hx => h x (by simp [hx])
    rw [List.cons_append,
      substTemplate_cons_of_none ctx (tryToken_not_brace hc (cs ++ l)), ih hcs]
    cases hl : substTemplate ctx l <;> simp

theorem substTemplate_ok_of_no_brace (ctx : String → Option String)
    (l : List Char) (h : ∀ c ∈ l, c ≠ '{') :
    substTemplate ctx l = .ok l := by
  have h2 := substTemplate_append_of_no_brace ctx l [] h
  rw [List.append_nil] at h2
  simpa [substTemplate] using h2

theorem dropWhile_space_of_word_head {w : List Char} (X : List Char)
    (hword : ∀ c ∈ w, isWordChar c = true) (hne : w ≠ []) :
    (w ++ X).dropWhile isSpaceChar = w ++ X := by
  cases w with
  | nil => exact absurd rfl hne
  | cons c cs =>
    rw [List.cons_append, List.dropWhile_cons_of_neg]
    simp [not_isSpaceChar_of_isWordChar (hword c (by simp))]

theorem takeWhile_word_at_space_or_brace {ws : List Char} (rest : List Char)
    (h : ∀ c ∈ ws, isSpaceChar c = true) :
    (ws ++ '}' :: rest).takeWhile isWordChar = [] := by
  cases ws with
  | nil =>
    rw [List.nil_append, List.takeWhile_cons_of_neg]
    decide
  | cons c cs =>
    rw [List.cons_append, List.takeWhile_cons_of_neg]
    simp [isWordChar_eq_false_of_isSpaceChar (h c (by simp))]

theorem dropWhile_word_at_space_or_brace {ws : List Char} (rest : List Char)
    (h : ∀ c ∈ ws, isSpaceChar c = true) :
    (ws ++ '}' :: rest).dropWhile isWordChar = ws ++ '}' :: rest := by
  cases ws with
  | nil =>
    rw [List.nil_append, List.dropWhile_cons_of_neg]
    decide
  | cons c cs =>
    rw [List.cons_append, List.dropWhile_cons_of_neg]
    simp [isWordChar_eq_false_of_isSpaceChar (h c (by simp))]

/-- The regex matches a well-formed whitespace-tolerant placeholder at the
head of the input and captures exactly its key. -/
theorem tryToken_token (ws1 w ws2 rest : List Char)
    (hw1 : ∀ c ∈ ws1, isSpaceChar c = true)
    (hw2 : ∀ c ∈ ws2, isSpaceChar c = true)
    (hword : ∀ c ∈ w, isWordChar c = true) (hne : w ≠ []) :
    tryToken ('{' :: '{' :: (ws1 ++ w ++ ws2 ++ '}' :: '}' :: rest)) =
      some (String.mk w, rest) := by
  simp only [List.append_assoc]
  have hd1 : (ws1 ++ (w ++ (ws2 ++ '}' :: '}' :: rest))).dropWhile isSpaceChar =
      w ++ (ws2 ++ '}' :: '}' :: rest) := by
    rw [List.dropWhile_append_of_pos hw1]
    exact dropWhile_space_of_word_head (ws2 ++ '}' :: '}' :: rest) hword hne
  have ht : (w ++ (ws2 ++ '}' :: '}' :: rest)).takeWhile isWordChar = w := by
    rw [List.takeWhile_append_of_pos hword,
      takeWhile_word_at_space_or_brace ('}' :: rest) hw2, List.append_nil]
  have hd2 : (w ++ (ws2 ++ '}' :: '}' :: rest)).dropWhile isWordChar =
      ws2 ++ '}' :: '}' :: rest := by
    rw [List.dropWhile_append_of_pos hword]
    exact dropWhile_word_at_space_or_brace ('}' :: rest) hw2
  have hd3 : (ws2 ++ '}' :: '}' :: rest).dropWhile isSpaceChar =
      '}' :: '}' :: rest := by
    rw [List.dropWhile_append_of_pos hw2, List.dropWhile_cons_of_neg]
    decide
  rw [tryToken, if_pos ⟨rfl, rfl⟩, hd1, ht, hd2, hd3, if_neg hne]
  simp

/-- The template context used by the round-trip claim: `projectTitle` maps to
`"hello-framework"` (no other key is mapped). -/
def ctxProjectTitle : String → Option String :=
  fun key => if key = "projectTitle" then some "hello-framework" else none

/-- C6: substituting a template whose contents are brace-free text around one
`projectTitle` placeholder token (whitespace-tolerant inside the braces)
with the context mapping `projectTitle` to `"hello-framework"` replaces the
token by exactly `hello-framework`, and the output contains no brace
character of the token (none at all, since the surrounding text is
brace-free). -/
theorem substTemplate_projectTitle_roundtrip (pre post ws1 ws2 : List Char)
    (hpre : ∀ c ∈ pre, c ≠ '{' ∧ c ≠ '}')
    (hpost : ∀ c ∈ post, c ≠ '{' ∧ c ≠ '}')
    (hw1 : ∀ c ∈ ws1, isSpaceChar c = true)
    (hw2 : ∀ c ∈ ws2, isSpaceChar c = true) :
    substTemplate ctxProjectTitle
        (pre ++ '{' :: '{' :: (ws1 ++ "projectTitle".data ++ ws2 ++ '}' :: '}' :: post)) =
      .ok (pre ++ "hello-framework".data ++ post)
    ∧ ∀ c ∈ pre ++ "hello-framework".data ++ post, c ≠ '{' ∧ c ≠ '}' := by
  constructor
  · rw [substTemplate_append_of_no_brace ctxProjectTitle pre _
      (fun c hc => (hpre c hc).1)]
    rw [substTemplate_cons_of_some ctxProjectTitle
      (tryToken_token ws1 "projectTitle".data ws2 post hw1 hw2
        (by decide) (by decide))]
    rw [substTemplate_ok_of_no_brace ctxProjectTitle post
      (fun c hc => (hpost c hc).1)]
    simp [ctxProjectTitle, string_mk_data]
  · intro c hc
    rcases List.mem_append.mp hc with hc2 | hc2
    · rcases List.mem_append.mp hc2 with hc3 | hc3
      · exact hpre c hc3
      · have : c ∈ "hello-framework".data := hc3
        fin_cases this <;> exact ⟨by decide, by decide⟩
    · exact hpost c hc2

/-- Witness for C6: rendering the single-token contents with one space of
padding inside the braces yields exactly `hello-framework`. -/
theorem substTemplate_projectTitle_roundtrip_witness :
    substTemplate ctxProjectTitle
        ([] ++ '{' :: '{' :: ([' '] ++ "projectTitle".data ++ [] ++ '}' :: '}' :: [])) =
      .ok ([] ++ "hello-framework".data ++ [])
    ∧ ∀ c ∈ ([] : List Char) ++ "hello-framework".data ++ [], c ≠ '{' ∧ c ≠ '}' := by
  exact substTemplate_projectTitle_roundtrip [] [] [' '] []
    (by intro c hc; exact absurd hc (by simp))
    (by intro c hc; exact absurd hc (by simp))
    (by intro c hc; simp at hc; subst hc; decide)
    (by intro c hc; exact absurd hc (by simp))

/-- Model of JS `String.prototype.endsWith` over the character lists of this
embedding. -/
def strEndsWith (s suffix : String) : Bool :=
  suffix.data.isSuffixOf s.data

/-- Model of node's `join(a, b)` as used here: joining with `"/"`, where the
`"."` step path is the identity (node normalizes `join(x, ".")` to `x` and
`join(".", x)` to `x`). -/
def joinPath (a b : String) : String :=
  if b = "." then a else if a = "." then b else a ++ "/" ++ b

/-- Model of `outputPath.replace(/\.tmpl$/, "")`: strip one final `".tmpl"`. -/
def stripTmplSuffix (s : String) : String :=
  if strEndsWith s ".tmpl" then String.mk (s.data.take (s.data.length - 5)) else s

/-- Filesystem effects of the template copy that the claims talk about:
`effects.mkdir` (attempted; create.ts line 162), `effects.copyFile`
(line 181) and `effects.writeFile` (line 179). -/
inductive FsEv where
  | mkdir : String → FsEv
  | copyFile : String → String → FsEv
  | writeFile : String → String → FsEv
deriving DecidableEq, Repr

/-- The template tree under `inputRoot`, as the recursive walk reads it
through `stat`/`readdir`/`readFile`: a file with its contents, or a
directory with its entries in `readdir` order. -/
inductive TNode where
  | file : String → TNode
  | dir : List (String × TNode) → TNode

/-- The `try { await effects.mkdir(outputPath, {recursive: true}); } catch {
// that's ok }` of create.ts lines 161-165: the attempt is made, and both on
success and on any error of the effect (`mkdirErr` gives the error an
attempt at a path raises, if any) execution continues identically — the
`catch` block discards the error. -/
def attemptMkdir (mkdirErr : String → Option String) (path : String) : List FsEv :=
  match mkdirErr path with
  | none => [FsEv.mkdir path]
  | some _ => [FsEv.mkdir path]

theorem attemptMkdir_eq (mkdirErr : String → Option String) (path : String) :
    attemptMkdir mkdirErr path = [FsEv.mkdir path] := by
  rw [attemptMkdir]
  cases mkdirErr path <;> rfl

mutual

/-- Embedding of `recursiveCopyTemplate`, create.ts lines 150-184, for the
tree node found at `join(inputRoot, stepPath)`. A directory: attempt
`mkdir` of the output path (any error silently caught), then recurse into
its entries in order. A file: return with no effect if the template path
ends in `".DS_Store"` (line 170); else if it ends in `".tmpl"` (line 171),
substitute placeholders in its contents and write the result to the
suffix-stripped output path — a substitution error aborts with no write;
else copy the file to the output path. The result is the trace of performed
effects plus the error that aborted the walk, if any (effects performed
before the error are kept; nothing is rolled back). -/
def recursiveCopyTemplate (mkdirErr : String → Option String)
    (inputRoot outputRoot : String) (ctx : String → Option String)
    (node : TNode) (stepPath : String) : List FsEv × Option String :=
  match node with
  | .dir entries =>
      let outputPath := joinPath outputRoot stepPath
      let tail := recursiveCopyEntries mkdirErr inputRoot outputRoot ctx entries stepPath
      (attemptMkdir mkdirErr outputPath ++ tail.1, tail.2)
  | .file contents =>
      let templatePath := joinPath inputRoot stepPath
      let outputPath := joinPath outputRoot stepPath
      if strEndsWith templatePath ".DS_Store" then ([], none)
      else if strEndsWith templatePath ".tmpl" then
        match substTemplate ctx contents.data with
        | .ok out =>
            ([FsEv.writeFile (stripTmplSuffix outputPath) (String.mk out)], none)
        | .error e => ([], some e)
      else ([FsEv.copyFile templatePath outputPath], none)

/-- The `for (const entry of await readdir(templatePath))` loop of create.ts
lines 166-168: process each entry in order with step path
`join(stepPath, entry)`; a thrown error propagates, skipping the remaining
entries but keeping the effects already performed. -/
def recursiveCopyEntries (mkdirErr : String → Option String)
    (inputRoot outputRoot : String) (ctx : String → Option String)
    (es : List (String × TNode)) (stepPath : String) : List FsEv × Option String :=
  match es with
  | [] => ([], none)
  | (name, child) :: rest =>
      let r := recursiveCopyTemplate mkdirErr inputRoot outputRoot ctx child
        (joinPath stepPath name)
      match r.2 with
      | some e => (r.1, some e)
      | none =>
          let r2 := recursiveCopyEntries mkdirErr inputRoot outputRoot ctx rest stepPath
          (r.1 ++ r2.1, r2.2)

end

mutual

theorem recursiveCopyTemplate_mkdirErr_irrel (m1 m2 : String → Option String)
    (i o : String) (ctx : String → Option String) :
    ∀ (node : TNode) (sp : String),
      recursiveCopyTemplate m1 i o ctx node sp = recursiveCopyTemplate m2 i o ctx node sp
  | .file c, sp => by
      simp only [recursiveCopyTemplate]
  | .dir entries, sp => by
      simp only [recursiveCopyTemplate, attemptMkdir_eq]
      rw [recursiveCopyEntries_mkdirErr_irrel m1 m2 i o ctx entries sp]

theorem recursiveCopyEntries_mkdirErr_irrel (m1 m2 : String → Option String)
    (i o : String) (ctx : String → Option String) :
    ∀ (es : List (String × TNode)) (sp : String),
      recursiveCopyEntries m1 i o ctx es sp = recursiveCopyEntries m2 i o ctx es sp
  | [], sp => by
      simp only [recursiveCopyEntries]
  | (name, child) :: rest, sp => by
      simp only [recursiveCopyEntries]
      rw [recursiveCopyTemplate_mkdirErr_irrel m1 m2 i o ctx child (joinPath sp name),
        recursiveCopyEntries_mkdirErr_irrel m1 m2 i o ctx rest sp]

end

/-- C10: during template materialization, every error the mkdir effect
raises when creating an output directory — of any kind, not only
"directory already exists" — is silently suppressed, and traversal
unconditionally continues into the directory's entries: the walk's result
does not depend on the mkdir error behavior at all, and a directory node
always produces the mkdir attempt followed by the processing of its entries
in order, with the aborting error (if any) coming only from the entries. -/
theorem mkdir_errors_suppressed_traversal_continues :
    (∀ (m1 m2 : String → Option String) (i o : String) (ctx : String → Option String)
       (node : TNode) (sp : String),
       recursiveCopyTemplate m1 i o ctx node sp = recursiveCopyTemplate m2 i o ctx node sp)
    ∧ (∀ (m : String → Option String) (i o : String) (ctx : String → Option String)
       (entries : List (String × TNode)) (sp : String),
       recursiveCopyTemplate m i o ctx (.dir entries) sp =
         (FsEv.mkdir (joinPath o sp) :: (recursiveCopyEntries m i o ctx entries sp).1,
           (recursiveCopyEntries m i o ctx entries sp).2)) := by
  constructor
  · exact fun m1 m2 i o ctx node sp =>
      recursiveCopyTemplate_mkdirErr_irrel m1 m2 i o ctx node sp
  · intro m i o ctx entries sp
    simp [recursiveCopyTemplate, attemptMkdir_eq]

/-- Counterexample to C5 as stated: a non-template file whose name is
`"foo.DS_Store"` — not exactly the OS-metadata marker name `".DS_Store"` —
is nevertheless skipped entirely (the walk of a directory containing only
that file performs the mkdir attempt and nothing else: no copy, no write),
because create.ts line 170 tests `templatePath.endsWith(".DS_Store")`, a
suffix match on the whole path, not an exact file-name match. -/
theorem ds_store_skip_not_exact_name :
    recursiveCopyTemplate (fun _ => none) "/tmpl" "/out" (fun _ => none)
        (TNode.dir [("foo.DS_Store", TNode.file "data")]) "." =
      ([FsEv.mkdir "/out"], none)
    ∧ ("foo.DS_Store" : String) ≠ ".DS_Store" := by
  constructor
  · have h1 : joinPath "/out" "." = "/out" := by decide
    have h2 : joinPath "." "foo.DS_Store" = "foo.DS_Store" := by decide
    have h3 : strEndsWith (joinPath "/tmpl" "foo.DS_Store") ".DS_Store" = true := by
      decide
    simp only [recursiveCopyTemplate, recursiveCopyEntries, attemptMkdir_eq,
      h1, h2, h3, if_true]
    simp
  · decide

/-- C5 (amended): during template materialization a file is skipped entirely
(no effect at all) if and only if its full template path ends with the
suffix `".DS_Store"` — which includes, but is not limited to, files named
exactly `".DS_Store"`; every other non-template file (template path not
ending in `".tmpl"`) produces exactly one byte-for-byte `copyFile` of the
template path to the output path. -/
theorem file_skipped_iff_ds_store_suffix (mkE : String → Option String)
    (i o : String) (ctx : String → Option String) (contents : String) (sp : String) :
    (strEndsWith (joinPath i sp) ".DS_Store" = true →
      recursiveCopyTemplate mkE i o ctx (.file contents) sp = ([], none))
    ∧ (strEndsWith (joinPath i sp) ".DS_Store" = false →
       strEndsWith (joinPath i sp) ".tmpl" = false →
      recursiveCopyTemplate mkE i o ctx (.file contents) sp =
        ([FsEv.copyFile (joinPath i sp) (joinPath o sp)], none)) := by
  constructor
  · intro h
    simp [recursiveCopyTemplate, h]
  · intro h1 h2
    simp [recursiveCopyTemplate, h1, h2]

/-- Witness for the amended C5: a file at step path `"a.DS_Store"` is
skipped; a file at step path `"b.txt"` is copied byte-for-byte. -/
theorem file_skipped_iff_ds_store_suffix_witness :
    recursiveCopyTemplate (fun _ => none) "/t" "/o" (fun _ => none)
        (TNode.file "x") "a.DS_Store" = ([], none)
    ∧ recursiveCopyTemplate (fun _ => none) "/t" "/o" (fun _ => none)
        (TNode.file "x") "b.txt" =
      ([FsEv.copyFile (joinPath "/t" "b.txt") (joinPath "/o" "b.txt")], none) := by
  constructor
  · exact (file_skipped_iff_ds_store_suffix (fun _ => none) "/t" "/o" (fun _ => none)
      "x" "a.DS_Store").1 (by decide)
  · exact (file_skipped_iff_ds_store_suffix (fun _ => none) "/t" "/o" (fun _ => none)
      "x" "b.txt").2 (by decide) (by decide)

/-- C3: a placeholder token whose key is unmapped in the context or mapped
to the empty string makes rendering of that template file fail with the
error naming that key (`no template variable <key>`), and the file's output
is not written — the walk of that file performs no effect at all, so the
output is never partially substituted. The first conjunct is the renderer
level (substitution error → no `writeFile`, error propagated); the second
is the substitution level (an unresolved token in otherwise brace-free
surroundings produces exactly the error naming its key). -/
theorem unresolved_placeholder_aborts_without_write :
    (∀ (mkE : String → Option String) (i o : String) (ctx : String → Option String)
       (contents : String) (sp e : String),
       strEndsWith (joinPath i sp) ".DS_Store" = false →
       strEndsWith (joinPath i sp) ".tmpl" = true →
       substTemplate ctx contents.data = .error e →
       recursiveCopyTemplate mkE i o ctx (.file contents) sp = ([], some e))
    ∧ (∀ (ctx : String → Option String) (pre ws1 w ws2 post : List Char),
       (∀ c ∈ pre, c ≠ '{') →
       (∀ c ∈ ws1, isSpaceChar c = true) →
       (∀ c ∈ ws2, isSpaceChar c = true) →
       (∀ c ∈ w, isWordChar c = true) →
       w ≠ [] →
       (ctx (String.mk w) = none ∨ ctx (String.mk w) = some "") →
       substTemplate ctx (pre ++ '{' :: '{' :: (ws1 ++ w ++ ws2 ++ '}' :: '}' :: post)) =
         .error ("no template variable " ++ String.mk w)) := by
  constructor
  · intro mkE i o ctx contents sp e h1 h2 h3
    simp [recursiveCopyTemplate, h1, h2, h3]
  · intro ctx pre ws1 w ws2 post hpre hw1 hw2 hword hne hctx
    rw [substTemplate_append_of_no_brace ctx pre _ hpre]
    rw [substTemplate_cons_of_some ctx (tryToken_token ws1 w ws2 post hw1 hw2 hword hne)]
    rcases hctx with hctx | hctx
    · rw [hctx]
    · rw [hctx]
      simp

/-- The template-file contents `\x7b\x7bmissingKey\x7d\x7d` used by the C3
witness, built from its characters. -/
def missingKeyContents : String :=
  String.mk ([] ++ '{' :: '{' :: ([] ++ "missingKey".data ++ [] ++ '}' :: '}' :: []))

/-- Witness for C3: rendering a template file containing only
`\x7b\x7bmissingKey\x7d\x7d` with an empty context fails with the error
naming `missingKey` and performs no write. -/
theorem unresolved_placeholder_aborts_without_write_witness :
    recursiveCopyTemplate (fun _ => none) "/t" "/o" (fun _ => none)
        (TNode.file missingKeyContents) "a.tmpl" =
      ([], some ("no template variable " ++ String.mk "missingKey".data)) := by
  have hb := unresolved_placeholder_aborts_without_write.2 (fun _ => none)
    [] [] "missingKey".data [] []
    (by intro c hc; exact absurd hc (by simp))
    (by intro c hc; exact absurd hc (by simp))
    (by intro c hc; exact absurd hc (by simp))
    (by decide) (by decide) (Or.inl rfl)
  exact unresolved_placeholder_aborts_without_write.1 (fun _ => none) "/t" "/o"
    (fun _ => none) missingKeyContents "a.tmpl"
    ("no template variable " ++ String.mk "missingKey".data)
    (by decide) (by decide) hb

/-- Split a character list at `/` separators into raw path segments. -/
def splitSlash (l : List Char) : List (List Char) :=
  l.foldr (fun c acc =>
    match acc with
    | [] => if c = '/' then [[], []] else [[c]]
    | g :: gs => if c = '/' then [] :: g :: gs else (c :: g) :: gs) [[]]

/-- Model of node's `normalize` on segment lists: drop empty and `"."`
segments, resolve `".."` against the preceding segment (a leading or
stacked `".."` is kept, as in a relative path). -/
def normSegments (segs : List String) : List String :=
  segs.foldl (fun acc seg =>
    if seg = "" ∨ seg = "." then acc
    else if seg = ".." then
      match acc.getLast? with
      | some lastSeg => if lastSeg = ".." then acc ++ [".."] else acc.dropLast
      | none => [".."]
    else acc ++ [seg]) []

/-- A path as the segment list of its normalized form; node's `dirname` is
`dropLast` on this representation, with the empty list (the current or root
directory, its own dirname) as the fixed point of the dirname chain. -/
def normalizePath (s : String) : List String :=
  normSegments ((splitSlash s.data).map String.mk)

/-- The filesystem state `validateRootPath` consults, as abstract observations
on normalized paths: `accessSync(p, W_OK)` succeeding, `existsSync`,
`statSync(p).isDirectory()` and `readdirSync`. -/
structure FsState where
  writable : List String → Bool
  pathExists : List String → Bool
  isDirectory : List String → Bool
  dirEntries : List String → List String

/-- Embedding of `canWriteRecursive`, create.ts lines 135-148: walk the
dirname chain upward from the path; succeed on the first writable ancestor
directory; stop with failure when `dirname` reaches its fixed point
(`dir === rootPath`) without finding one. -/
def canWriteRecursive (fs : FsState) (p : List String) : Bool :=
  if fs.writable p.dropLast then true
  else
    match p with
    | [] => false
    | a :: as => canWriteRecursive fs (a :: as).dropLast
termination_by p.length
decreasing_by
  simp only [List.length_dropLast, List.length_cons]
  omega

/-- Embedding of `validateRootPath`, create.ts lines 126-133: accept the
empty string (the prompt's sentinel for the default value) unconditionally;
normalize; reject when no ancestor is writable; accept a nonexistent path;
reject an existing non-directory; reject an existing non-empty directory. -/
def validateRootPath (fs : FsState) (rootPath : String) : Option String :=
  if rootPath = "" then none
  else
    let p := normalizePath rootPath
    if !canWriteRecursive fs p then some "Path is not writable."
    else if !fs.pathExists p then none
    else if !fs.isDirectory p then some "File already exists."
    else if (fs.dirEntries p).length != 0 then some "Directory is not empty."
    else none

theorem dropLast_take_eq_take {p : List String} {k : Nat} (hk : k ≤ p.length - 1) :
    p.dropLast.take k = p.take k := by
  rw [List.dropLast_eq_take, List.take_take]
  congr 1
  omega

/-- The ancestors `canWriteRecursive` consults are exactly the proper
prefixes of the path (the dirname chain down to the empty path): when none
of them is writable, the check fails. The bound `n` only drives the
induction. -/
theorem canWriteRecursive_eq_false_bounded (fs : FsState) :
    ∀ (n : Nat) (p : List String), p.length ≤ n →
      (∀ k, k < max 1 p.length → fs.writable (p.take k) = false) →
      canWriteRecursive fs p = false
  | _, [], _, h => by
      rw [canWriteRecursive]
      have h0 := h 0 (by omega)
      simp only [List.take_nil] at h0
      simp [h0]
  | 0, a :: as, hlen, _ => by simp at hlen
  | n + 1, a :: as, hlen, h => by
      rw [canWriteRecursive]
      have hd : fs.writable (a :: as).dropLast = false := by
        have htake : (a :: as).dropLast = (a :: as).take as.length := by
          rw [List.dropLast_eq_take]
          simp
        rw [htake]
        exact h as.length (by simp only [List.length_cons]; omega)
      rw [hd]
      simp only [Bool.false_eq_true, if_false]
      refine canWriteRecursive_eq_false_bounded fs n (a :: as).dropLast ?_ ?_
      · simp only [List.length_dropLast, List.length_cons] at hlen ⊢
        omega
      · intro k hk
        simp only [List.length_dropLast, List.length_cons] at hk
        rw [dropLast_take_eq_take (by simp only [List.length_cons]; omega)]
        exact h k (by simp only [List.length_cons]; omega)

theorem canWriteRecursive_eq_false (fs : FsState) (p : List String)
    (h : ∀ k, k < max 1 p.length → fs.writable (p.take k) = false) :
    canWriteRecursive fs p = false :=
  canWriteRecursive_eq_false_bounded fs p.length p (Nat.le_refl _) h

/-- Conversely, a writable proper prefix makes the check succeed. -/
theorem canWriteRecursive_eq_true_bounded (fs : FsState) :
    ∀ (n : Nat) (p : List String) (k : Nat), p.length ≤ n →
      k < max 1 p.length → fs.writable (p.take k) = true →
      canWriteRecursive fs p = true
  | _, [], k, _, hk, hw => by
      rw [canWriteRecursive]
      have hk0 : k = 0 := by simp only [List.length_nil] at hk; omega
      subst hk0
      simp only [List.take_nil] at hw
      simp [hw]
  | 0, a :: as, _, hlen, _, _ => by simp at hlen
  | n + 1, a :: as, k, hlen, hk, hw => by
      rw [canWriteRecursive]
      by_cases hd : fs.writable (a :: as).dropLast = true
      · simp [hd]
      · have hkk : k ≤ as.length := by simp only [List.length_cons] at hk; omega
        have hne : k ≠ as.length := by
          intro hke
          apply hd
          have htake : (a :: as).dropLast = (a :: as).take as.length := by
            rw [List.dropLast_eq_take]
            simp
          rw [htake, ← hke]
          exact hw
        have hklt : k < as.length := by omega
        rw [if_neg hd]
        exact canWriteRecursive_eq_true_bounded fs n (a :: as).dropLast k
          (by simp only [List.length_dropLast, List.length_cons] at hlen ⊢; omega)
          (by simp only [List.length_dropLast, List.length_cons]; omega)
          (by rw [dropLast_take_eq_take (by simp only [List.length_cons]; omega)]
              exact hw)

theorem canWriteRecursive_eq_true (fs : FsState) (p : List String) (k : Nat)
    (hk : k < max 1 p.length) (hw : fs.writable (p.take k) = true) :
    canWriteRecursive fs p = true :=
  canWriteRecursive_eq_true_bounded fs p.length p k (Nat.le_refl _) hk hw

/-- C4: `validateRootPath` accepts the default-value sentinel (the empty
input, for which the prompt substitutes the default) unchanged, returning
no error regardless of filesystem state; for a non-sentinel path it applies
the source's checks in order: it rejects with "Path is not writable." when
no writable ancestor directory exists (no step of the dirname chain — no
proper prefix of the normalized path — is writable); otherwise it accepts a
nonexistent path, rejects an existing non-directory with "File already
exists.", and rejects an existing, non-empty directory with "Directory is
not empty.". -/
theorem validateRootPath_contract (fs : FsState) (rootPath : String) :
    (validateRootPath fs "" = none)
    ∧ (rootPath ≠ "" →
        (∀ k, k < max 1 (normalizePath rootPath).length →
          fs.writable ((normalizePath rootPath).take k) = false) →
        validateRootPath fs rootPath = some "Path is not writable.")
    ∧ (rootPath ≠ "" →
        (∃ k, k < max 1 (normalizePath rootPath).length ∧
          fs.writable ((normalizePath rootPath).take k) = true) →
        fs.pathExists (normalizePath rootPath) = false →
        validateRootPath fs rootPath = none)
    ∧ (rootPath ≠ "" →
        (∃ k, k < max 1 (normalizePath rootPath).length ∧
          fs.writable ((normalizePath rootPath).take k) = true) →
        fs.pathExists (normalizePath rootPath) = true →
        fs.isDirectory (normalizePath rootPath) = false →
        validateRootPath fs rootPath = some "File already exists.")
    ∧ (rootPath ≠ "" →
        (∃ k, k < max 1 (normalizePath rootPath).length ∧
          fs.writable ((normalizePath rootPath).take k) = true) →
        fs.pathExists (normalizePath rootPath) = true →
        fs.isDirectory (normalizePath rootPath) = true →
        fs.dirEntries (normalizePath rootPath) ≠ [] →
        validateRootPath fs rootPath = some "Directory is not empty.") := by
  refine ⟨?_, ?_, ?_, ?_, ?_⟩
  · simp [validateRootPath]
  · intro hr hw
    have hc := canWriteRecursive_eq_false fs (normalizePath rootPath) hw
    simp [validateRootPath, hr, hc]
  · intro hr hex hne
    obtain ⟨k, hk, hw⟩ := hex
    have hc := canWriteRecursive_eq_true fs (normalizePath rootPath) k hk hw
    simp [validateRootPath, hr, hc, hne]
  · intro hr hex hp hd
    obtain ⟨k, hk, hw⟩ := hex
    have hc := canWriteRecursive_eq_true fs (normalizePath rootPath) k hk hw
    simp [validateRootPath, hr, hc, hp, hd]
  · intro hr hex hp hd hne
    obtain ⟨k, hk, hw⟩ := hex
    have hc := canWriteRecursive_eq_true fs (normalizePath rootPath) k hk hw
    have hlen : (fs.dirEntries (normalizePath rootPath)).length ≠ 0 := by
      simpa [List.length_eq_zero] using hne
    simp [validateRootPath, hr, hc, hp, hd, hlen]

/-- A filesystem state with nothing writable and nothing existing, used by
the C4 witness. -/
def fsNoWrite : FsState :=
  { writable := fun _ => false
    pathExists := fun _ => false
    isDirectory := fun _ => false
    dirEntries := fun _ => [] }

/-- A filesystem state with everything writable, one non-empty directory
`proj` and one plain file `notes.txt`, used by the C4 witness. -/
def fsDemo : FsState :=
  { writable := fun _ => true
    pathExists := fun p => decide (p = ["proj"]) || decide (p = ["notes.txt"])
    isDirectory := fun p => decide (p = ["proj"])
    dirEntries := fun p => if p = ["proj"] then ["index.md"] else [] }

/-- Witness for C4: the sentinel is accepted on a filesystem where nothing
is writable; a path with no writable ancestor is rejected as not writable;
a nonexistent path is accepted; an existing plain file and an existing
non-empty directory are rejected with their respective messages. -/
theorem validateRootPath_contract_witness :
    validateRootPath fsNoWrite "" = none
    ∧ validateRootPath fsNoWrite "a/b" = some "Path is not writable."
    ∧ validateRootPath fsDemo "newdir" = none
    ∧ validateRootPath fsDemo "notes.txt" = some "File already exists."
    ∧ validateRootPath fsDemo "proj" = some "Directory is not empty." := by
  refine ⟨(validateRootPath_contract fsNoWrite "x").1, ?_, ?_, ?_, ?_⟩
  · exact (validateRootPath_contract fsNoWrite "a/b").2.1 (by decide)
      (fun k hk => rfl)
  · exact (validateRootPath_contract fsDemo "newdir").2.2.1 (by decide)
      ⟨0, by decide, rfl⟩ (by decide)
  · exact (validateRootPath_contract fsDemo "notes.txt").2.2.2.1 (by decide)
      ⟨0, by decide, rfl⟩ (by decide) (by decide)
  · exact (validateRootPath_contract fsDemo "proj").2.2.2.2 (by decide)
      ⟨0, by decide, rfl⟩ (by decide) (by decide) (by decide)
